import Mathlib

/-!
PyOpenPose: the `OpenPoseWrapper` adapter.

A shallow embedding of `src/PyOpenPoseLib/OpenPoseWrapper.cpp`.

* The wrapped estimation engine (everything under `op::`) is an external
  library: it is a parameter, `Engine S A`, where `S` is the state of the
  engine sub-objects held behind `membersPtr` and `A` is `op::Array<float>`.
* A method of the wrapper is a function from the adapter state to a result
  paired with the adapter state it leaves behind, so that whatever a method
  changed before throwing stays changed.
* Every call into a library is appended to the ghost field `calls`, in the
  order the source makes it.
-/

namespace PyOpenPose

/-! ## Numbers: `int` cells and `float` coordinates -/

/-- Smallest value of a 32-bit signed `int`. -/
def INT_MIN : Int := -2147483648

/-- Largest value of a 32-bit signed `int`. -/
def INT_MAX : Int := 2147483647

/-- Whether an integer is a value of the 32-bit signed `int` type. -/
def inInt32 (v : Int) : Bool := decide (INT_MIN ≤ v) && decide (v ≤ INT_MAX)

/-- Number of low-order bits of `a` that do not fit a 24-bit significand:
the least `e` (up to the fuel) with `a / 2 ^ e < 2 ^ 24`. -/
def excessBits : Nat → Nat → Nat
  | 0, _ => 0
  | fuel + 1, a => if a < 16777216 then 0 else excessBits fuel (a / 2) + 1

/-- The integer nearest to `n` that a single-precision `float` holds, ties to
the even significand: the value of the C++ conversion `int -> float`. -/
def roundToSingle (n : Int) : Int :=
  let a := n.natAbs
  let e := excessBits 128 a
  let q := a / 2 ^ e
  let r := a % 2 ^ e
  let q1 := if 2 ^ e < 2 * r ∨ (2 * r = 2 ^ e ∧ q % 2 = 1) then q + 1 else q
  n.sign * ((q1 * 2 ^ e : Nat) : Int)

/-- Whether the integer `n` is exactly the value of a finite single-precision
`float`: no bit below the 24-bit significand is set, and the exponent is in
range (the largest finite `float` is `(2 ^ 24 - 1) * 2 ^ 104`). -/
def isSingle (n : Int) : Bool :=
  decide (excessBits 128 n.natAbs ≤ 104) && n.natAbs % 2 ^ excessBits 128 n.natAbs == 0

/-- Conversion `int -> float`, as in `op::Rectangle<float>(r[0], ...)`.
A finite `float` is held as the rational number it denotes. -/
def intToFloat (n : Int) : ℚ := ((roundToSingle n : Int) : ℚ)

/-- Truncation toward zero. -/
def truncQ (c : ℚ) : Int := if 0 ≤ c then ⌊c⌋ else ⌈c⌉

/-- Conversion `float -> int`, as in `cv::Vec4i(r.x, ...)`: truncation toward
zero. C++ leaves the conversion undefined when the truncated value is not an
`int`; the value taken here is the one the x86-64 conversion instruction
delivers, `0x80000000`. -/
def floatToInt (c : ℚ) : Int :=
  let t := truncQ c
  if inInt32 t then t else INT_MIN

/-- Whether a `float` coordinate is an integer: its value has denominator 1
and is the value of a finite `float`. -/
def isIntegerFloat (c : ℚ) : Bool := c.den == 1 && isSingle c.num

/-- Whether a `float` coordinate is an integer that the `int` type holds. -/
def isInt32Float (c : ℚ) : Bool := isIntegerFloat c && inInt32 c.num

/-- OpenCV type code of `CV_32SC1` (depth `CV_32S` = 4, one channel). -/
def CV_32SC1 : Nat := 4

/-- A two-dimensional `cv::Mat`: its column count, its element type code and
its rows. For type `CV_32SC1` the entries are the `int` elements, which lie
in the 32-bit range; the wrapper reads the elements of no other kind of
matrix. A matrix of more than two
dimensions reports `cols = -1` in OpenCV and fails every column check below,
as does any `cols` other than the expected one here. -/
structure Mat where
  cols : Nat
  type : Nat
  data : List (List Int)
deriving DecidableEq, Repr

/-- Field `rows` of `cv::Mat`. -/
def Mat.rows (m : Mat) : Nat := m.data.length

/-- Every row has `cols` entries. -/
def Mat.wellFormed (m : Mat) : Prop := ∀ row ∈ m.data, row.length = m.cols

/-- Default-constructed, empty `cv::Mat`. -/
def Mat.empty : Mat := ⟨0, 0, []⟩

/-- Constructor `cv::Mat(rows, cols, type, cv::Scalar(0))`. -/
def Mat.zeros (rows cols type : Nat) : Mat :=
  ⟨cols, type, List.replicate rows (List.replicate cols 0)⟩

/-- Type `op::Rectangle<float>`. -/
structure Rectangle where
  x : ℚ
  y : ℚ
  width : ℚ
  height : ℚ
deriving DecidableEq, Repr

/-- Type `cv::Vec4i`. -/
structure Vec4i where
  v0 : Int
  v1 : Int
  v2 : Int
  v3 : Int
deriving DecidableEq, Repr

/-- Type `cv::Vec8i`. -/
structure Vec8i where
  v0 : Int
  v1 : Int
  v2 : Int
  v3 : Int
  v4 : Int
  v5 : Int
  v6 : Int
  v7 : Int
deriving DecidableEq, Repr

/-- The four cells of a `Vec4i`, in order. -/
def Vec4i.cells (v : Vec4i) : List Int := [v.v0, v.v1, v.v2, v.v3]

/-- The eight cells of a `Vec8i`, in order. -/
def Vec8i.cells (v : Vec8i) : List Int := [v.v0, v.v1, v.v2, v.v3, v.v4, v.v5, v.v6, v.v7]

/-- Reading `m.reshape(4, m.rows)` through `begin<cv::Vec4i>() .. end<cv::Vec4i>()`:
one `Vec4i` per row, made of the row's four cells. -/
def Mat.asVec4i (m : Mat) : List Vec4i :=
  m.data.map fun row => ⟨row.getD 0 0, row.getD 1 0, row.getD 2 0, row.getD 3 0⟩

/-- Reading `m.reshape(8, m.rows)` through `begin<cv::Vec8i>() .. end<cv::Vec8i>()`. -/
def Mat.asVec8i (m : Mat) : List Vec8i :=
  m.data.map fun row =>
    ⟨row.getD 0 0, row.getD 1 0, row.getD 2 0, row.getD 3 0,
     row.getD 4 0, row.getD 5 0, row.getD 6 0, row.getD 7 0⟩

/-- Writing a sequence of `Vec4i` through `begin<cv::Vec4i>()` of
`m.reshape(4, m.rows)`: element `i` replaces row `i`; rows beyond the
sequence keep their content. -/
def Mat.writeVec4i (m : Mat) (vs : List Vec4i) : Mat :=
  { m with data := (vs.take m.rows).map Vec4i.cells ++ m.data.drop vs.length }

/-- Writing a sequence of `Vec8i` through `begin<cv::Vec8i>()` of
`m.reshape(8, m.rows)`. -/
def Mat.writeVec8i (m : Mat) (vs : List Vec8i) : Mat :=
  { m with data := (vs.take m.rows).map Vec8i.cells ++ m.data.drop vs.length }

/-- Whether the four coordinates of a rectangle are integers. -/
def Rectangle.isInteger (r : Rectangle) : Bool :=
  isIntegerFloat r.x && isIntegerFloat r.y && isIntegerFloat r.width && isIntegerFloat r.height

/-- Whether the four coordinates of a rectangle are integers that the `int`
type holds. -/
def Rectangle.isInt32 (r : Rectangle) : Bool :=
  isInt32Float r.x && isInt32Float r.y && isInt32Float r.width && isInt32Float r.height

/-- The lambda of `detectFace(rgb)`: `cv::Vec4i(r.x, r.y, r.width, r.height)`. -/
def rectToVec4i (r : Rectangle) : Vec4i :=
  ⟨floatToInt r.x, floatToInt r.y, floatToInt r.width, floatToInt r.height⟩

/-- The lambda of `detectFace(rgb, faceRects)`:
`op::Rectangle<float>(r[0], r[1], r[2], r[3])`. -/
def vec4iToRect (r : Vec4i) : Rectangle :=
  ⟨intToFloat r.v0, intToFloat r.v1, intToFloat r.v2, intToFloat r.v3⟩

/-- The lambda of `detectHands(rgb)`: the left rectangle, then the right one. -/
def rectsToVec8i (r : Rectangle × Rectangle) : Vec8i :=
  ⟨floatToInt r.1.x, floatToInt r.1.y, floatToInt r.1.width, floatToInt r.1.height,
   floatToInt r.2.x, floatToInt r.2.y, floatToInt r.2.width, floatToInt r.2.height⟩

/-- The lambda of `detectHands(rgb, handRects)`: cells 0..3 make the first
rectangle of the `std::array`, cells 4..7 the second. -/
def vec8iToRects (r : Vec8i) : Rectangle × Rectangle :=
  (⟨intToFloat r.v0, intToFloat r.v1, intToFloat r.v2, intToFloat r.v3⟩,
   ⟨intToFloat r.v4, intToFloat r.v5, intToFloat r.v6, intToFloat r.v7⟩)

/-- Type `cv::Size`. -/
structure Size where
  width : Int
  height : Int
deriving DecidableEq, Repr

/-- Type `op::Point<int>`. -/
structure Point where
  x : Int
  y : Int
deriving DecidableEq, Repr

/-- The values of `op::PoseModel` the constructor names. -/
inductive PoseModel where
  | COCO_18
  | MPI_15
  | MPI_15_4
deriving DecidableEq, Repr

/-- The values of `op::HeatMapType` the constructor names. -/
inductive HeatMapType where
  | Parts
  | Background
  | PAFs
deriving DecidableEq, Repr

/-- Modelled from the spec: the enumeration `OpenPoseWrapper::KeypointType` of
the header `OpenPoseWrapper.h`, which is not among the sources; the categories
are the three the spec lists and `getKeypoints` switches on. -/
inductive KeypointType where
  | POSE
  | FACE
  | HAND
deriving DecidableEq, Repr

/-- The engine sub-objects of `PrivateData` that `initializationOnThread` is
called on. -/
inductive SubObject where
  | poseExtractorCaffe
  | poseRenderer
  | faceExtractor
  | faceRenderer
  | handExtractor
  | handRenderer
deriving DecidableEq, Repr

/-- Arguments of the constructor of `PrivateData`. Decimal literals stand for
the `float` nearest to them. -/
structure PrivateDataArgs where
  netInputSize : Point
  netOutputSize : Point
  netInputSizeFace : Point
  netOutputSizeFace : Point
  outputSize : Point
  poseModel : PoseModel
  modelFolder : String
  numScales : Int
  scaleGap : ℚ
  blendAlpha : ℚ
  heatMapTypes : List HeatMapType
  heatMapScale : Int
deriving DecidableEq, Repr

/-! ## The engine and the adapter state -/

/-- A call into a library (`google::`, `op::`), with the arguments the
wrapper passes. -/
inductive EngineCall (A : Type) where
  | initGoogleLogging (name : String)
  | setPriorityThreshold (level : Int)
  | log (message : String)
  | newPrivateData (args : PrivateDataArgs)
  | initializationOnThread (sub : SubObject)
  | inputFormat (rgb : Mat)
  | poseForwardPass (netInputArray : A) (inputSize : Nat × Nat) (scaleRatios : List ℚ)
  | getPoseKeypoints
  | detectFaces (poseKeypoints : A)
  | faceForwardPass (faceRectsOP : List Rectangle) (rgb : Mat)
  | getFaceKeypoints
  | detectHands (poseKeypoints : A)
  | handForwardPass (handRectsOP : List (Rectangle × Rectangle)) (rgb : Mat)
  | getHandKeypoints
  | outputFormat (rgb : Mat)
  | renderPose (outputArray : A) (poseKeypoints : A)
  | renderFace (outputArray : A) (faceKeypoints : A)
  | renderHand (outputArray : A) (handKeypoints : A × A)
  | formatToCvMat (outputArray : A)
  | getHeatMaps
deriving DecidableEq, Repr

/-- The wrapped engine: what each call of the wrapper into `op::` computes,
over the engine state `S` (the sub-objects of `PrivateData`) and the array
type `A` (`op::Array<float>`). The engine's operations are taken as total; a
failure inside the engine is outside the wrapper. The scale argument `1.0f`
of the detectors and extractors is fixed in the source and left out. -/
structure Engine (S A : Type) where
  newPrivateData : PrivateDataArgs → S
  initializationOnThread : SubObject → S → S
  inputFormat : Mat → S → A × List ℚ
  poseForwardPass : A → Nat × Nat → List ℚ → S → S
  getPoseKeypoints : S → A
  detectFaces : A → S → List Rectangle
  faceForwardPass : List Rectangle → Mat → S → S
  getFaceKeypoints : S → A
  detectHands : A → S → List (Rectangle × Rectangle)
  handForwardPass : List (Rectangle × Rectangle) → Mat → S → S
  getHandKeypoints : S → A × A
  outputFormat : Mat → S → ℚ × A
  renderPose : A → A → S → A × S
  renderFace : A → A → S → A × S
  renderHand : A → A × A → S → A × S
  formatToCvMat : A → S → Mat
  getHeatMaps : S → A
  getConstCvMat : A → Mat

/-- Modelled from the spec: the data members of class `OpenPoseWrapper`, whose
header `OpenPoseWrapper.h` is not among the sources: the two pipeline flags,
the two stored region matrices and the engine handle `membersPtr`. The field
`calls` is ghost state: the library calls made so far, oldest first. -/
structure OpenPoseWrapper (S A : Type) where
  withFace : Bool
  withHands : Bool
  faceRects : Mat
  handRects : Mat
  members : S
  calls : List (EngineCall A)

/-- Modelled from the spec: the engine utility `op::error`, which is not among
the sources: it reports the message and fails; it does not return. -/
def op_error (message : String) : Except String Unit := .error message

/-- Modelled from the spec: the engine utility `op::check`, which is not among
the sources: it fails through `op::error` when the condition is false. -/
def op_check (condition : Bool) (message : String) : Except String Unit :=
  if condition then .ok () else op_error message

/-- What a run of the constructor leaves: the adapter or the failure, the
local variable `poseModel` at that moment (`none` while nothing was assigned
to it) and the library calls made. -/
structure Construction (S A : Type) where
  result : Except String (OpenPoseWrapper S A)
  poseModel : Option PoseModel
  calls : List (EngineCall A)

/-- Constructor `OpenPoseWrapper::OpenPoseWrapper`. -/
def OpenPoseWrapper.new {S A : Type} (E : Engine S A) (netPoseSize netFaceSize outSize : Size)
    (model modelFolder : String) (logLevel : Int) (downloadHeatmaps : Bool) (scaleMode : Int)
    (withFace withHands : Bool) : Construction S A :=
  let c0 : List (EngineCall A) := [.initGoogleLogging "OpenPose Wrapper"]
  -- Step 1 - Set logging level
  match op_check (decide (0 ≤ logLevel) && decide (logLevel ≤ 255)) "Wrong logging_level value." with
  | .error e => ⟨.error e, none, c0⟩
  | .ok _ =>
    let c1 := c0 ++ [.setPriorityThreshold logLevel]
    -- Step 2 - Init params
    let outputSize : Point := ⟨outSize.width, outSize.height⟩
    let netInputSize : Point := ⟨netPoseSize.width, netPoseSize.height⟩
    let netOutputSize : Point := netInputSize
    let netInputSizeFace : Point := ⟨netFaceSize.width, netFaceSize.height⟩
    let netOutputSizeFace : Point := netInputSizeFace
    let c2 := c1 ++ [.log ""]
    let selection : Except String PoseModel :=
      if model == "COCO" then .ok .COCO_18
      else if model == "MPI" then .ok .MPI_15
      else if model == "MPI_4_layers" then .ok .MPI_15_4
      else
        match op_error "String does not correspond to any model (COCO, MPI, MPI_4_layers)" with
        | .error e => .error e
        | .ok _ => .ok .COCO_18
    match selection with
    | .error e => ⟨.error e, none, c2⟩
    | .ok poseModel =>
      let numScales : Int := 1
      let scaleGap : ℚ := 3 / 10
      let blendAlpha : ℚ := 6 / 10
      let hmt : List HeatMapType :=
        if downloadHeatmaps then [.Parts, .Background, .PAFs] else []
      -- Step 3 - Initialize all required classes
      let args : PrivateDataArgs :=
        ⟨netInputSize, netOutputSize, netInputSizeFace, netOutputSizeFace, outputSize, poseModel,
         modelFolder, numScales, scaleGap, blendAlpha, hmt, scaleMode⟩
      let m0 := E.newPrivateData args
      let c3 := c2 ++ [.newPrivateData args]
      -- Step 4 - Initialize resources on desired thread
      let m1 := E.initializationOnThread .poseRenderer
                  (E.initializationOnThread .poseExtractorCaffe m0)
      let c4 := c3 ++ [.initializationOnThread .poseExtractorCaffe,
                       .initializationOnThread .poseRenderer]
      let m2 := if withFace then
                  E.initializationOnThread .faceRenderer
                    (E.initializationOnThread .faceExtractor m1)
                else m1
      let c5 := if withFace then
                  c4 ++ [.initializationOnThread .faceExtractor,
                         .initializationOnThread .faceRenderer]
                else c4
      let m3 := if withHands then
                  E.initializationOnThread .handRenderer
                    (E.initializationOnThread .handExtractor m2)
                else m2
      let c6 := if withHands then
                  c5 ++ [.initializationOnThread .handExtractor,
                         .initializationOnThread .handRenderer]
                else c5
      ⟨.ok ⟨withFace, withHands, Mat.empty, Mat.empty, m3, c6⟩, some poseModel, c6⟩

/-- Method `OpenPoseWrapper::detectPose`. -/
def OpenPoseWrapper.detectPose {S A : Type} (E : Engine S A) (rgb : Mat)
    (s : OpenPoseWrapper S A) : Except String Unit × OpenPoseWrapper S A :=
  let formatted := E.inputFormat rgb s.members
  let netInputArray := formatted.1
  let scaleRatios := formatted.2
  let size := (rgb.cols, rgb.rows)
  (.ok (),
   { s with
     members := E.poseForwardPass netInputArray size scaleRatios s.members
     calls := s.calls ++ [.inputFormat rgb, .poseForwardPass netInputArray size scaleRatios] })

/-- Method `OpenPoseWrapper::detectFace(rgb)`: the regions come from the pose
keypoints. -/
def OpenPoseWrapper.detectFace {S A : Type} (E : Engine S A) (rgb : Mat)
    (s : OpenPoseWrapper S A) : Except String Unit × OpenPoseWrapper S A :=
  if !s.withFace then
    (.error "Face network was not initialized.", s)
  else
    let poseKeypoints := E.getPoseKeypoints s.members
    let faceRectsOP := E.detectFaces poseKeypoints s.members
    let faceRects := (Mat.zeros faceRectsOP.length 4 CV_32SC1).writeVec4i (faceRectsOP.map rectToVec4i)
    (.ok (),
     { s with
       faceRects := faceRects
       members := E.faceForwardPass faceRectsOP rgb s.members
       calls := s.calls ++ [.getPoseKeypoints, .detectFaces poseKeypoints,
                            .faceForwardPass faceRectsOP rgb] })

/-- Method `OpenPoseWrapper::detectFace(rgb, faceRects)`: the regions are the
caller's. -/
def OpenPoseWrapper.detectFaceWith {S A : Type} (E : Engine S A) (rgb : Mat) (faceRects : Mat)
    (s : OpenPoseWrapper S A) : Except String Unit × OpenPoseWrapper S A :=
  if !s.withFace then
    (.error "Face network was not initialized.", s)
  else if faceRects.cols != 4 || faceRects.type != CV_32SC1 then
    (.error "Invalid face rectangles format. Expected Nx4 mat with type CV_32SC1", s)
  else
    let faceRectsOP := faceRects.asVec4i.map vec4iToRect
    (.ok (),
     { s with
       faceRects := faceRects
       members := E.faceForwardPass faceRectsOP rgb s.members
       calls := s.calls ++ [.faceForwardPass faceRectsOP rgb] })

/-- Method `OpenPoseWrapper::detectHands(rgb)`: the regions come from the pose
keypoints. -/
def OpenPoseWrapper.detectHands {S A : Type} (E : Engine S A) (rgb : Mat)
    (s : OpenPoseWrapper S A) : Except String Unit × OpenPoseWrapper S A :=
  if !s.withHands then
    (.error "Hand network was not initialized.", s)
  else
    let poseKeypoints := E.getPoseKeypoints s.members
    let handRectsOP := E.detectHands poseKeypoints s.members
    let handRects := (Mat.zeros handRectsOP.length 8 CV_32SC1).writeVec8i (handRectsOP.map rectsToVec8i)
    (.ok (),
     { s with
       handRects := handRects
       members := E.handForwardPass handRectsOP rgb s.members
       calls := s.calls ++ [.getPoseKeypoints, .detectHands poseKeypoints,
                            .handForwardPass handRectsOP rgb] })

/-- Method `OpenPoseWrapper::detectHands(rgb, handRects)`: the regions are the
caller's. -/
def OpenPoseWrapper.detectHandsWith {S A : Type} (E : Engine S A) (rgb : Mat) (handRects : Mat)
    (s : OpenPoseWrapper S A) : Except String Unit × OpenPoseWrapper S A :=
  if !s.withHands then
    (.error "Hand network was not initialized.", s)
  else if handRects.cols != 8 || handRects.type != CV_32SC1 then
    (.error "Invalid hand rectangles format. Expected Nx8 mat with type CV_32SC1", s)
  else
    let handRectsOP := handRects.asVec8i.map vec8iToRects
    (.ok (),
     { s with
       handRects := handRects
       members := E.handForwardPass handRectsOP rgb s.members
       calls := s.calls ++ [.handForwardPass handRectsOP rgb] })

/-- Method `OpenPoseWrapper::render`: the composited image and the adapter
state left behind. -/
def OpenPoseWrapper.render {S A : Type} (E : Engine S A) (rgb : Mat)
    (s : OpenPoseWrapper S A) : Mat × OpenPoseWrapper S A :=
  let outputArray := (E.outputFormat rgb s.members).2
  let c0 := s.calls ++ [.outputFormat rgb]
  let poseKeypoints := E.getPoseKeypoints s.members
  let afterPose := E.renderPose outputArray poseKeypoints s.members
  let c1 := c0 ++ [.getPoseKeypoints, .renderPose outputArray poseKeypoints]
  let afterFace :=
    if s.withFace then
      E.renderFace afterPose.1 (E.getFaceKeypoints afterPose.2) afterPose.2
    else afterPose
  let c2 :=
    if s.withFace then
      c1 ++ [.getFaceKeypoints, .renderFace afterPose.1 (E.getFaceKeypoints afterPose.2)]
    else c1
  let afterHand :=
    if s.withHands then
      E.renderHand afterFace.1 (E.getHandKeypoints afterFace.2) afterFace.2
    else afterFace
  let c3 :=
    if s.withHands then
      c2 ++ [.getHandKeypoints, .renderHand afterFace.1 (E.getHandKeypoints afterFace.2)]
    else c2
  let outputImage := E.formatToCvMat afterHand.1 afterHand.2
  (outputImage, { s with members := afterHand.2, calls := c3 ++ [.formatToCvMat afterHand.1] })

/-- Method `OpenPoseWrapper::getKeypoints`: the list `res` and the adapter
state left behind. -/
def OpenPoseWrapper.getKeypoints {S A : Type} (E : Engine S A) (kpt : KeypointType)
    (s : OpenPoseWrapper S A) : List Mat × OpenPoseWrapper S A :=
  match kpt with
  | .FACE =>
    let faces := E.getFaceKeypoints s.members
    ([E.getConstCvMat faces], { s with calls := s.calls ++ [.getFaceKeypoints] })
  | .HAND =>
    let hands := E.getHandKeypoints s.members
    ([E.getConstCvMat hands.1, E.getConstCvMat hands.2],
     { s with calls := s.calls ++ [.getHandKeypoints] })
  | _ =>
    let persons := E.getPoseKeypoints s.members
    ([E.getConstCvMat persons], { s with calls := s.calls ++ [.getPoseKeypoints] })

/-- Method `OpenPoseWrapper::getHeatmaps`: a clone of the heat-map matrix. -/
def OpenPoseWrapper.getHeatmaps {S A : Type} (E : Engine S A)
    (s : OpenPoseWrapper S A) : Mat × OpenPoseWrapper S A :=
  let maps := E.getHeatMaps s.members
  (E.getConstCvMat maps, { s with calls := s.calls ++ [.getHeatMaps] })

/-! ## Sequences of calls -/

/-- A call of one of the adapter's methods, with its arguments. -/
inductive Call where
  | detectPose (rgb : Mat)
  | detectFace (rgb : Mat)
  | detectFaceWith (rgb : Mat) (faceRects : Mat)
  | detectHands (rgb : Mat)
  | detectHandsWith (rgb : Mat) (handRects : Mat)
  | render (rgb : Mat)
  | getKeypoints (kpt : KeypointType)
  | getHeatmaps
deriving DecidableEq, Repr

/-- The adapter state one call leaves behind, whether it returned or threw. -/
def OpenPoseWrapper.step {S A : Type} (E : Engine S A) (s : OpenPoseWrapper S A) :
    Call → OpenPoseWrapper S A
  | .detectPose rgb => (s.detectPose E rgb).2
  | .detectFace rgb => (s.detectFace E rgb).2
  | .detectFaceWith rgb faceRects => (s.detectFaceWith E rgb faceRects).2
  | .detectHands rgb => (s.detectHands E rgb).2
  | .detectHandsWith rgb handRects => (s.detectHandsWith E rgb handRects).2
  | .render rgb => (s.render E rgb).2
  | .getKeypoints kpt => (s.getKeypoints E kpt).2
  | .getHeatmaps => (s.getHeatmaps E).2

/-- The adapter state after a sequence of calls, first call first. -/
def OpenPoseWrapper.run {S A : Type} (E : Engine S A) (s : OpenPoseWrapper S A)
    (calls : List Call) : OpenPoseWrapper S A :=
  calls.foldl (OpenPoseWrapper.step E) s

/-- The overlay stages of the engine. -/
inductive Stage where
  | pose
  | face
  | hand
deriving DecidableEq, Repr

/-- The overlay stage a library call runs, if it runs one. -/
def EngineCall.stage {A : Type} : EngineCall A → Option Stage
  | .renderPose _ _ => some .pose
  | .renderFace _ _ => some .face
  | .renderHand _ _ => some .hand
  | _ => none

/-- The buffer an overlay stage is handed, if the call is one. -/
def EngineCall.stageBuffer {A : Type} : EngineCall A → Option A
  | .renderPose out _ => some out
  | .renderFace out _ => some out
  | .renderHand out _ => some out
  | _ => none

/-- The overlay stages the spec has `render` run for a pair of pipeline
flags: pose always, then face if the face pipeline is enabled, then hand if
the hand pipeline is enabled. Written from the spec, to compare `render`
with. -/
def stagesFor (withFace withHands : Bool) : List Stage :=
  [Stage.pose] ++ (if withFace then [Stage.face] else [])
    ++ (if withHands then [Stage.hand] else [])

/-- One overlay stage of the engine on a buffer and an engine state: the
stage reads the current keypoints of its extractor and draws them on the
buffer it is handed. -/
def Engine.overlay {S A : Type} (E : Engine S A) (at_ : A × S) : Stage → A × S
  | .pose => E.renderPose at_.1 (E.getPoseKeypoints at_.2) at_.2
  | .face => E.renderFace at_.1 (E.getFaceKeypoints at_.2) at_.2
  | .hand => E.renderHand at_.1 (E.getHandKeypoints at_.2) at_.2

/-- The two library calls one overlay stage amounts to, with the buffer and
the keypoints it is handed. -/
def Engine.overlayCalls {S A : Type} (E : Engine S A) (at_ : A × S) :
    Stage → List (EngineCall A)
  | .pose => [.getPoseKeypoints, .renderPose at_.1 (E.getPoseKeypoints at_.2)]
  | .face => [.getFaceKeypoints, .renderFace at_.1 (E.getFaceKeypoints at_.2)]
  | .hand => [.getHandKeypoints, .renderHand at_.1 (E.getHandKeypoints at_.2)]

/-- The buffer and engine state after a list of overlay stages, each stage
drawing on the buffer the stage before it returned. -/
def Engine.overlayAll {S A : Type} (E : Engine S A) (at_ : A × S) (stages : List Stage) :
    A × S :=
  stages.foldl E.overlay at_

/-- The library calls of a list of overlay stages, each stage handed the
buffer the stage before it returned. -/
def Engine.overlayTrace {S A : Type} (E : Engine S A) : A × S → List Stage →
    List (EngineCall A)
  | _, [] => []
  | at_, stage :: rest => E.overlayCalls at_ stage ++ E.overlayTrace (E.overlay at_ stage) rest

/-! ## A small engine to run the adapter on -/

/-- An engine over natural numbers: its state counts the forward passes, an
array is a number, the face detector proposes one region and the hand
detector one pair of regions. -/
def countingEngine : Engine Nat Nat where
  newPrivateData := fun _ => 0
  initializationOnThread := fun _ m => m
  inputFormat := fun rgb _ => (rgb.rows, [1])
  poseForwardPass := fun _ _ _ m => m + 1
  getPoseKeypoints := fun m => m
  detectFaces := fun _ _ => [⟨10, 20, 30, 40⟩]
  faceForwardPass := fun _ _ m => m + 1
  getFaceKeypoints := fun m => m
  detectHands := fun _ _ => [(⟨1, 2, 3, 4⟩, ⟨5, 6, 7, 8⟩)]
  handForwardPass := fun _ _ m => m + 1
  getHandKeypoints := fun m => (m, m + 1)
  outputFormat := fun rgb _ => (1, rgb.rows)
  renderPose := fun out kp m => (out + kp + 1, m)
  renderFace := fun out kp m => (out + kp + 2, m)
  renderHand := fun out kp m => (out + kp.1 + kp.2 + 3, m)
  formatToCvMat := fun out _ => ⟨1, 0, [[(out : Int)]]⟩
  getHeatMaps := fun m => m
  getConstCvMat := fun a => ⟨1, 5, [[(a : Int)]]⟩

/-- A three-channel image of two rows, as the adapter sees it. -/
def sampleImage : Mat := ⟨3, 16, [[1, 2, 3], [4, 5, 6]]⟩

/-- The counting engine with detectors that propose a region whose left edge
is at `2 ^ 32`, an integer that is the value of a `float`. -/
def wideEngine : Engine Nat Nat :=
  { countingEngine with
    detectFaces := fun _ _ => [⟨4294967296, 0, 1, 1⟩]
    detectHands := fun _ _ => [(⟨4294967296, 0, 1, 1⟩, ⟨0, 0, 1, 1⟩)] }

/-- The engine arguments the sample adapters below are built with. -/
def sampleArgs : PrivateDataArgs :=
  ⟨⟨368, 368⟩, ⟨368, 368⟩, ⟨368, 368⟩, ⟨368, 368⟩, ⟨640, 480⟩, .COCO_18, "models/", 1,
   3 / 10, 6 / 10, [], 0⟩

/-- The adapter the constructor builds over the counting engine for model
`COCO`, logging level 0 and both pipelines disabled. -/
def poseOnlyAdapter : OpenPoseWrapper Nat Nat :=
  ⟨false, false, Mat.empty, Mat.empty, 0,
   [.initGoogleLogging "OpenPose Wrapper", .setPriorityThreshold 0, .log "",
    .newPrivateData sampleArgs, .initializationOnThread .poseExtractorCaffe,
    .initializationOnThread .poseRenderer]⟩

/-- The adapter the constructor builds over the counting engine for model
`COCO`, logging level 0 and both pipelines enabled. -/
def fullAdapter : OpenPoseWrapper Nat Nat :=
  ⟨true, true, Mat.empty, Mat.empty, 0,
   [.initGoogleLogging "OpenPose Wrapper", .setPriorityThreshold 0, .log "",
    .newPrivateData sampleArgs, .initializationOnThread .poseExtractorCaffe,
    .initializationOnThread .poseRenderer, .initializationOnThread .faceExtractor,
    .initializationOnThread .faceRenderer, .initializationOnThread .handExtractor,
    .initializationOnThread .handRenderer]⟩

/-- A region matrix of the wrong width: one row of three `int` columns. -/
def threeColumns : Mat := ⟨3, CV_32SC1, [[1, 2, 3]]⟩

/-- A face region matrix of two rows. -/
def twoFaces : Mat := ⟨4, CV_32SC1, [[10, 20, 30, 40], [50, 60, 70, 80]]⟩

/-- A hand region matrix of one row. -/
def oneHandPair : Mat := ⟨8, CV_32SC1, [[1, 2, 3, 4, 5, 6, 7, 8]]⟩

/-- A face region matrix of no row. -/
def noFace : Mat := ⟨4, CV_32SC1, []⟩

/-- Calls made before the ones under study, a failing one among them. -/
def priorCalls : List Call :=
  [.detectPose sampleImage, .detectFace sampleImage, .detectHandsWith sampleImage oneHandPair,
   .render sampleImage, .getKeypoints .FACE]

/-! ## The pipeline flags never change -/

theorem step_flags {S A : Type} (E : Engine S A) (s : OpenPoseWrapper S A) (c : Call) :
    (s.step E c).withFace = s.withFace ∧ (s.step E c).withHands = s.withHands := by
  cases c <;>
    simp only [OpenPoseWrapper.step, OpenPoseWrapper.detectPose, OpenPoseWrapper.detectFace,
      OpenPoseWrapper.detectFaceWith, OpenPoseWrapper.detectHands,
      OpenPoseWrapper.detectHandsWith, OpenPoseWrapper.render, OpenPoseWrapper.getKeypoints,
      OpenPoseWrapper.getHeatmaps] <;>
    (try split) <;> (try split) <;> simp

theorem run_flags {S A : Type} (E : Engine S A) (calls : List Call) (s : OpenPoseWrapper S A) :
    (s.run E calls).withFace = s.withFace ∧ (s.run E calls).withHands = s.withHands := by
  induction calls generalizing s with
  | nil => exact ⟨rfl, rfl⟩
  | cons c cs ih =>
    have h := ih (s.step E c)
    have hs := step_flags E s c
    simp only [OpenPoseWrapper.run, List.foldl] at h ⊢
    exact ⟨h.1.trans hs.1, h.2.trans hs.2⟩

theorem new_flags {S A : Type} (E : Engine S A) (netPoseSize netFaceSize outSize : Size)
    (model modelFolder : String) (logLevel : Int) (downloadHeatmaps : Bool) (scaleMode : Int)
    (withFace withHands : Bool) (w : OpenPoseWrapper S A)
    (h : (OpenPoseWrapper.new E netPoseSize netFaceSize outSize model modelFolder logLevel
            downloadHeatmaps scaleMode withFace withHands).result = .ok w) :
    w.withFace = withFace ∧ w.withHands = withHands := by
  unfold OpenPoseWrapper.new at h
  simp only at h
  split at h
  · simp at h
  · split at h
    · simp at h
    · simp only [Except.ok.injEq] at h
      subst h
      exact ⟨rfl, rfl⟩

theorem detectFace_disabled {S A : Type} (E : Engine S A) (s : OpenPoseWrapper S A)
    (rgb regions : Mat) (h : s.withFace = false) :
    (s.detectFace E rgb).1 = .error "Face network was not initialized." ∧
    (s.detectFaceWith E rgb regions).1 = .error "Face network was not initialized." := by
  simp [OpenPoseWrapper.detectFace, OpenPoseWrapper.detectFaceWith, h]

theorem detectHands_disabled {S A : Type} (E : Engine S A) (s : OpenPoseWrapper S A)
    (rgb regions : Mat) (h : s.withHands = false) :
    (s.detectHands E rgb).1 = .error "Hand network was not initialized." ∧
    (s.detectHandsWith E rgb regions).1 = .error "Hand network was not initialized." := by
  simp [OpenPoseWrapper.detectHands, OpenPoseWrapper.detectHandsWith, h]

/-! ## Guards of the detect methods -/

/-- C1: an adapter constructed with the face flag false fails both
`detectFace(image)` and `detectFace(image, regions)` with the runtime error
"Face network was not initialized.", for every image and regions matrix and
after any sequence of prior calls; an adapter constructed with the hand flag
false fails both `detectHands` variants likewise. -/
theorem disabled_pipeline_always_fails {S A : Type} (E : Engine S A)
    (netPoseSize netFaceSize outSize : Size) (model modelFolder : String) (logLevel : Int)
    (downloadHeatmaps : Bool) (scaleMode : Int) (withFace withHands : Bool)
    (w : OpenPoseWrapper S A)
    (hnew : (OpenPoseWrapper.new E netPoseSize netFaceSize outSize model modelFolder logLevel
              downloadHeatmaps scaleMode withFace withHands).result = .ok w)
    (prior : List Call) (rgb regions : Mat) :
    (withFace = false →
      ((w.run E prior).detectFace E rgb).1 = .error "Face network was not initialized." ∧
      ((w.run E prior).detectFaceWith E rgb regions).1
        = .error "Face network was not initialized.") ∧
    (withHands = false →
      ((w.run E prior).detectHands E rgb).1 = .error "Hand network was not initialized." ∧
      ((w.run E prior).detectHandsWith E rgb regions).1
        = .error "Hand network was not initialized.") := by
  have hw := new_flags E netPoseSize netFaceSize outSize model modelFolder logLevel
    downloadHeatmaps scaleMode withFace withHands w hnew
  have hr := run_flags E prior w
  constructor
  · intro hf
    exact detectFace_disabled E _ rgb regions (by rw [hr.1, hw.1, hf])
  · intro hh
    exact detectHands_disabled E _ rgb regions (by rw [hr.2, hw.2, hh])

/-- C1, at the adapter built for model `COCO` with both pipelines disabled,
after five prior calls. -/
theorem disabled_pipeline_always_fails_witness :
    (OpenPoseWrapper.new countingEngine ⟨368, 368⟩ ⟨368, 368⟩ ⟨640, 480⟩ "COCO" "models/" 0
        false 0 false false).result = .ok poseOnlyAdapter ∧
    ((poseOnlyAdapter.run countingEngine priorCalls).detectFace countingEngine sampleImage).1
      = .error "Face network was not initialized." ∧
    ((poseOnlyAdapter.run countingEngine priorCalls).detectFaceWith countingEngine sampleImage
        twoFaces).1 = .error "Face network was not initialized." ∧
    ((poseOnlyAdapter.run countingEngine priorCalls).detectHands countingEngine sampleImage).1
      = .error "Hand network was not initialized." ∧
    ((poseOnlyAdapter.run countingEngine priorCalls).detectHandsWith countingEngine sampleImage
        twoFaces).1 = .error "Hand network was not initialized." :=
  have h := disabled_pipeline_always_fails countingEngine ⟨368, 368⟩ ⟨368, 368⟩ ⟨640, 480⟩
    "COCO" "models/" 0 false 0 false false poseOnlyAdapter rfl priorCalls sampleImage twoFaces
  ⟨rfl, (h.1 rfl).1, (h.1 rfl).2, (h.2 rfl).1, (h.2 rfl).2⟩

/-- C2: with the face pipeline enabled, `detectFace(image, regions)` fails
validation exactly when the matrix does not have 4 columns of type
`CV_32SC1`, and returns otherwise; with the hand pipeline enabled,
`detectHands(image, regions)` fails validation exactly when the matrix does
not have 8 columns of type `CV_32SC1`, and returns otherwise. The number of
rows plays no part. -/
theorem regions_rejected_iff_wrong_shape {S A : Type} (E : Engine S A)
    (s : OpenPoseWrapper S A) (rgb regions : Mat) :
    (s.withFace = true →
      ((s.detectFaceWith E rgb regions).1
          = .error "Invalid face rectangles format. Expected Nx4 mat with type CV_32SC1"
        ↔ ¬ (regions.cols = 4 ∧ regions.type = CV_32SC1)) ∧
      ((s.detectFaceWith E rgb regions).1 = .ok ()
        ↔ (regions.cols = 4 ∧ regions.type = CV_32SC1))) ∧
    (s.withHands = true →
      ((s.detectHandsWith E rgb regions).1
          = .error "Invalid hand rectangles format. Expected Nx8 mat with type CV_32SC1"
        ↔ ¬ (regions.cols = 8 ∧ regions.type = CV_32SC1)) ∧
      ((s.detectHandsWith E rgb regions).1 = .ok ()
        ↔ (regions.cols = 8 ∧ regions.type = CV_32SC1))) := by
  constructor
  · intro hf
    by_cases hc : regions.cols = 4 <;> by_cases ht : regions.type = CV_32SC1 <;>
      simp [OpenPoseWrapper.detectFaceWith, hf, hc, ht]
  · intro hh
    by_cases hc : regions.cols = 8 <;> by_cases ht : regions.type = CV_32SC1 <;>
      simp [OpenPoseWrapper.detectHandsWith, hh, hc, ht]

/-- C2, on the adapter with both pipelines enabled: a matrix of no row and
four columns passes the face validation, a matrix of three columns fails it,
and a matrix of four columns fails the hand validation. -/
theorem regions_rejected_iff_wrong_shape_witness :
    (fullAdapter.detectFaceWith countingEngine sampleImage noFace).1 = .ok () ∧
    (fullAdapter.detectFaceWith countingEngine sampleImage threeColumns).1
      = .error "Invalid face rectangles format. Expected Nx4 mat with type CV_32SC1" ∧
    (fullAdapter.detectHandsWith countingEngine sampleImage twoFaces).1
      = .error "Invalid hand rectangles format. Expected Nx8 mat with type CV_32SC1" :=
  have hf := (regions_rejected_iff_wrong_shape countingEngine fullAdapter sampleImage noFace).1 rfl
  have h3 := (regions_rejected_iff_wrong_shape countingEngine fullAdapter sampleImage
    threeColumns).1 rfl
  have h4 := (regions_rejected_iff_wrong_shape countingEngine fullAdapter sampleImage
    twoFaces).2 rfl
  ⟨hf.2.2 ⟨rfl, rfl⟩, h3.1.2 (by decide), h4.1.2 (by decide)⟩

/-- C3: when `detectFace(image, regions)` or `detectHands(image, regions)`
fails, the adapter state it leaves is the state it found: the stored region
matrices, the engine state and the list of library calls are unchanged, so no
forward pass was invoked. Such a failure happens exactly when the pipeline is
disabled or the regions matrix is malformed. -/
theorem failed_detect_changes_nothing {S A : Type} (E : Engine S A)
    (s : OpenPoseWrapper S A) (rgb regions : Mat) :
    ((s.detectFaceWith E rgb regions).1 ≠ .ok () →
      (s.detectFaceWith E rgb regions).2 = s) ∧
    ((s.detectHandsWith E rgb regions).1 ≠ .ok () →
      (s.detectHandsWith E rgb regions).2 = s) ∧
    ((s.detectFaceWith E rgb regions).1 ≠ .ok () ↔
      (s.withFace = false ∨ regions.cols ≠ 4 ∨ regions.type ≠ CV_32SC1)) ∧
    ((s.detectHandsWith E rgb regions).1 ≠ .ok () ↔
      (s.withHands = false ∨ regions.cols ≠ 8 ∨ regions.type ≠ CV_32SC1)) := by
  refine ⟨?_, ?_, ?_, ?_⟩
  · cases hf : s.withFace <;> by_cases hc : regions.cols = 4 <;>
      by_cases ht : regions.type = CV_32SC1 <;>
      simp [OpenPoseWrapper.detectFaceWith, hf, hc, ht]
  · cases hh : s.withHands <;> by_cases hc : regions.cols = 8 <;>
      by_cases ht : regions.type = CV_32SC1 <;>
      simp [OpenPoseWrapper.detectHandsWith, hh, hc, ht]
  · cases hf : s.withFace <;> by_cases hc : regions.cols = 4 <;>
      by_cases ht : regions.type = CV_32SC1 <;>
      simp [OpenPoseWrapper.detectFaceWith, hf, hc, ht]
  · cases hh : s.withHands <;> by_cases hc : regions.cols = 8 <;>
      by_cases ht : regions.type = CV_32SC1 <;>
      simp [OpenPoseWrapper.detectHandsWith, hh, hc, ht]

/-- C3, at a malformed matrix on the enabled adapter after a pose pass: the
state, with its one recorded forward pass, is left as it was. -/
theorem failed_detect_changes_nothing_witness :
    ((fullAdapter.step countingEngine (.detectPose sampleImage)).detectFaceWith countingEngine
        sampleImage threeColumns).2 = fullAdapter.step countingEngine (.detectPose sampleImage) ∧
    ((fullAdapter.step countingEngine (.detectPose sampleImage)).detectHandsWith countingEngine
        sampleImage threeColumns).2 = fullAdapter.step countingEngine (.detectPose sampleImage) :=
  have h := failed_detect_changes_nothing countingEngine
    (fullAdapter.step countingEngine (.detectPose sampleImage)) sampleImage threeColumns
  ⟨h.1 (by simp [OpenPoseWrapper.detectFaceWith, OpenPoseWrapper.step,
      OpenPoseWrapper.detectPose, fullAdapter, threeColumns]),
   h.2.1 (by simp [OpenPoseWrapper.detectHandsWith, OpenPoseWrapper.step,
      OpenPoseWrapper.detectPose, fullAdapter, threeColumns])⟩

/-! ## The constructor -/

/-- C4: the logging-level check of the constructor passes, and the level is
handed to the logger, exactly when `0 <= logLevel <= 255`; for every other
level construction fails with "Wrong logging_level value." right after the
logging set-up, whatever the other arguments are. -/
theorem logging_level_accepted_iff_in_range {S A : Type} (E : Engine S A)
    (netPoseSize netFaceSize outSize : Size) (model modelFolder : String) (logLevel : Int)
    (downloadHeatmaps : Bool) (scaleMode : Int) (withFace withHands : Bool) :
    ((OpenPoseWrapper.new E netPoseSize netFaceSize outSize model modelFolder logLevel
        downloadHeatmaps scaleMode withFace withHands).result
        = .error "Wrong logging_level value."
      ↔ ¬ (0 ≤ logLevel ∧ logLevel ≤ 255)) ∧
    (EngineCall.setPriorityThreshold logLevel ∈
        (OpenPoseWrapper.new E netPoseSize netFaceSize outSize model modelFolder logLevel
          downloadHeatmaps scaleMode withFace withHands).calls
      ↔ (0 ≤ logLevel ∧ logLevel ≤ 255)) ∧
    (¬ (0 ≤ logLevel ∧ logLevel ≤ 255) →
      (OpenPoseWrapper.new E netPoseSize netFaceSize outSize model modelFolder logLevel
        downloadHeatmaps scaleMode withFace withHands).calls
        = [.initGoogleLogging "OpenPose Wrapper"]) := by
  by_cases h : 0 ≤ logLevel ∧ logLevel ≤ 255
  · obtain ⟨h0, h1⟩ := h
    by_cases m1 : model = "COCO"
    · simp [OpenPoseWrapper.new, op_check, op_error, h0, h1, m1]
      split <;> split <;> simp
    · by_cases m2 : model = "MPI"
      · simp [OpenPoseWrapper.new, op_check, op_error, h0, h1, m2]
        split <;> split <;> simp
      · by_cases m3 : model = "MPI_4_layers"
        · simp [OpenPoseWrapper.new, op_check, op_error, h0, h1, m3]
          split <;> split <;> simp
        · simp [OpenPoseWrapper.new, op_check, op_error, h0, h1, m1, m2, m3]
  · have h2 : ¬ ((decide (0 ≤ logLevel) && decide (logLevel ≤ 255)) = true) := by
      simpa using h
    simp [OpenPoseWrapper.new, op_check, op_error, h2]
    simpa using h

/-- C4, at the bounds: the levels 0 and 255 reach the logger, the levels -1
and 256 fail construction with the logging-level error before anything else
is called. -/
theorem logging_level_accepted_iff_in_range_witness :
    EngineCall.setPriorityThreshold 0 ∈
      (OpenPoseWrapper.new countingEngine ⟨368, 368⟩ ⟨368, 368⟩ ⟨640, 480⟩ "COCO" "models/" 0
        false 0 true true).calls ∧
    EngineCall.setPriorityThreshold 255 ∈
      (OpenPoseWrapper.new countingEngine ⟨368, 368⟩ ⟨368, 368⟩ ⟨640, 480⟩ "COCO" "models/" 255
        false 0 true true).calls ∧
    (OpenPoseWrapper.new countingEngine ⟨368, 368⟩ ⟨368, 368⟩ ⟨640, 480⟩ "COCO" "models/" (-1)
        false 0 true true).result = .error "Wrong logging_level value." ∧
    (OpenPoseWrapper.new countingEngine ⟨368, 368⟩ ⟨368, 368⟩ ⟨640, 480⟩ "COCO" "models/" 256
        false 0 true true).result = .error "Wrong logging_level value." ∧
    (OpenPoseWrapper.new countingEngine ⟨368, 368⟩ ⟨368, 368⟩ ⟨640, 480⟩ "COCO" "models/" 256
        false 0 true true).calls = [.initGoogleLogging "OpenPose Wrapper"] :=
  ⟨(logging_level_accepted_iff_in_range countingEngine ⟨368, 368⟩ ⟨368, 368⟩ ⟨640, 480⟩ "COCO"
      "models/" 0 false 0 true true).2.1.2 (by decide),
   (logging_level_accepted_iff_in_range countingEngine ⟨368, 368⟩ ⟨368, 368⟩ ⟨640, 480⟩ "COCO"
      "models/" 255 false 0 true true).2.1.2 (by decide),
   (logging_level_accepted_iff_in_range countingEngine ⟨368, 368⟩ ⟨368, 368⟩ ⟨640, 480⟩ "COCO"
      "models/" (-1) false 0 true true).1.2 (by decide),
   (logging_level_accepted_iff_in_range countingEngine ⟨368, 368⟩ ⟨368, 368⟩ ⟨640, 480⟩ "COCO"
      "models/" 256 false 0 true true).1.2 (by decide),
   (logging_level_accepted_iff_in_range countingEngine ⟨368, 368⟩ ⟨368, 368⟩ ⟨640, 480⟩ "COCO"
      "models/" 256 false 0 true true).2.2 (by decide)⟩

theorem new_recognised {S A : Type} (E : Engine S A)
    (netPoseSize netFaceSize outSize : Size) (model modelFolder : String) (logLevel : Int)
    (downloadHeatmaps : Bool) (scaleMode : Int) (withFace withHands : Bool) (pm : PoseModel)
    (h0 : 0 ≤ logLevel) (h1 : logLevel ≤ 255)
    (hsel : (if model == "COCO" then some PoseModel.COCO_18
             else if model == "MPI" then some PoseModel.MPI_15
             else if model == "MPI_4_layers" then some PoseModel.MPI_15_4 else none) = some pm) :
    (OpenPoseWrapper.new E netPoseSize netFaceSize outSize model modelFolder logLevel
        downloadHeatmaps scaleMode withFace withHands).poseModel = some pm ∧
    (∃ w, (OpenPoseWrapper.new E netPoseSize netFaceSize outSize model modelFolder logLevel
        downloadHeatmaps scaleMode withFace withHands).result = .ok w) ∧
    (∃ args, args.poseModel = pm ∧ EngineCall.newPrivateData args ∈
      (OpenPoseWrapper.new E netPoseSize netFaceSize outSize model modelFolder logLevel
        downloadHeatmaps scaleMode withFace withHands).calls) := by
  by_cases m1 : model = "COCO"
  · simp [m1] at hsel
    subst hsel
    simp [OpenPoseWrapper.new, op_check, op_error, h0, h1, m1]
    split <;> split <;> simp
  · by_cases m2 : model = "MPI"
    · simp [m2] at hsel
      subst hsel
      simp [OpenPoseWrapper.new, op_check, op_error, h0, h1, m2]
      split <;> split <;> simp
    · by_cases m3 : model = "MPI_4_layers"
      · simp [m3] at hsel
        subst hsel
        simp [OpenPoseWrapper.new, op_check, op_error, h0, h1, m3]
        split <;> split <;> simp
      · simp [m1, m2, m3] at hsel

theorem new_unrecognised {S A : Type} (E : Engine S A)
    (netPoseSize netFaceSize outSize : Size) (model modelFolder : String) (logLevel : Int)
    (downloadHeatmaps : Bool) (scaleMode : Int) (withFace withHands : Bool)
    (m1 : model ≠ "COCO") (m2 : model ≠ "MPI") (m3 : model ≠ "MPI_4_layers") :
    (OpenPoseWrapper.new E netPoseSize netFaceSize outSize model modelFolder logLevel
        downloadHeatmaps scaleMode withFace withHands).poseModel = none ∧
    (∃ e, (OpenPoseWrapper.new E netPoseSize netFaceSize outSize model modelFolder logLevel
        downloadHeatmaps scaleMode withFace withHands).result = .error e) ∧
    (∀ args, EngineCall.newPrivateData args ∉
      (OpenPoseWrapper.new E netPoseSize netFaceSize outSize model modelFolder logLevel
        downloadHeatmaps scaleMode withFace withHands).calls) ∧
    (0 ≤ logLevel ∧ logLevel ≤ 255 →
      (OpenPoseWrapper.new E netPoseSize netFaceSize outSize model modelFolder logLevel
        downloadHeatmaps scaleMode withFace withHands).result
        = .error "String does not correspond to any model (COCO, MPI, MPI_4_layers)" ∧
      (OpenPoseWrapper.new E netPoseSize netFaceSize outSize model modelFolder logLevel
        downloadHeatmaps scaleMode withFace withHands).calls
        = [.initGoogleLogging "OpenPose Wrapper", .setPriorityThreshold logLevel, .log ""]) := by
  by_cases h : 0 ≤ logLevel ∧ logLevel ≤ 255
  · obtain ⟨h0, h1⟩ := h
    simp [OpenPoseWrapper.new, op_check, op_error, h0, h1, m1, m2, m3]
  · have h2 : ¬ ((decide (0 ≤ logLevel) && decide (logLevel ≤ 255)) = true) := by
      simpa using h
    simp [OpenPoseWrapper.new, op_check, op_error, h2]
    intro h0
    by_contra h1
    exact h ⟨h0, not_lt.mp h1⟩

/-- C5: with a logging level in [0,255], the model name "COCO" selects the
18-point model, "MPI" the 15-point model and "MPI_4_layers" the 15-point
4-layer variant, the engine is built with the selected model and
construction returns; for every other string (compared exactly) construction
fails with "String does not correspond to any model (COCO, MPI,
MPI_4_layers)". Construction returns exactly for the three names. -/
theorem model_selected_iff_recognised {S A : Type} (E : Engine S A)
    (netPoseSize netFaceSize outSize : Size) (model modelFolder : String) (logLevel : Int)
    (downloadHeatmaps : Bool) (scaleMode : Int) (withFace withHands : Bool)
    (h0 : 0 ≤ logLevel) (h1 : logLevel ≤ 255) :
    ((∃ w, (OpenPoseWrapper.new E netPoseSize netFaceSize outSize model modelFolder logLevel
        downloadHeatmaps scaleMode withFace withHands).result = .ok w)
      ↔ (model = "COCO" ∨ model = "MPI" ∨ model = "MPI_4_layers")) ∧
    (model = "COCO" →
      (OpenPoseWrapper.new E netPoseSize netFaceSize outSize model modelFolder logLevel
        downloadHeatmaps scaleMode withFace withHands).poseModel = some .COCO_18) ∧
    (model = "MPI" →
      (OpenPoseWrapper.new E netPoseSize netFaceSize outSize model modelFolder logLevel
        downloadHeatmaps scaleMode withFace withHands).poseModel = some .MPI_15) ∧
    (model = "MPI_4_layers" →
      (OpenPoseWrapper.new E netPoseSize netFaceSize outSize model modelFolder logLevel
        downloadHeatmaps scaleMode withFace withHands).poseModel = some .MPI_15_4) ∧
    (∀ pm, (OpenPoseWrapper.new E netPoseSize netFaceSize outSize model modelFolder logLevel
        downloadHeatmaps scaleMode withFace withHands).poseModel = some pm →
      ∃ args, args.poseModel = pm ∧ EngineCall.newPrivateData args ∈
        (OpenPoseWrapper.new E netPoseSize netFaceSize outSize model modelFolder logLevel
          downloadHeatmaps scaleMode withFace withHands).calls) ∧
    (¬ (model = "COCO" ∨ model = "MPI" ∨ model = "MPI_4_layers") →
      (OpenPoseWrapper.new E netPoseSize netFaceSize outSize model modelFolder logLevel
        downloadHeatmaps scaleMode withFace withHands).result
        = .error "String does not correspond to any model (COCO, MPI, MPI_4_layers)") := by
  by_cases m1 : model = "COCO"
  · have h := new_recognised E netPoseSize netFaceSize outSize model modelFolder logLevel
      downloadHeatmaps scaleMode withFace withHands .COCO_18 h0 h1 (by simp [m1])
    refine ⟨⟨fun _ => Or.inl m1, fun _ => h.2.1⟩, fun _ => h.1, ?_, ?_, ?_, ?_⟩
    · intro h2; rw [m1] at h2; exact absurd h2 (by decide)
    · intro h2; rw [m1] at h2; exact absurd h2 (by decide)
    · intro pm hpm
      rw [h.1] at hpm
      cases hpm
      exact h.2.2
    · intro hn; exact absurd (Or.inl m1) hn
  · by_cases m2 : model = "MPI"
    · have h := new_recognised E netPoseSize netFaceSize outSize model modelFolder logLevel
        downloadHeatmaps scaleMode withFace withHands .MPI_15 h0 h1 (by simp [m2])
      refine ⟨⟨fun _ => Or.inr (Or.inl m2), fun _ => h.2.1⟩, fun h2 => absurd h2 m1,
        fun _ => h.1, ?_, ?_, ?_⟩
      · intro h2; rw [m2] at h2; exact absurd h2 (by decide)
      · intro pm hpm
        rw [h.1] at hpm
        cases hpm
        exact h.2.2
      · intro hn; exact absurd (Or.inr (Or.inl m2)) hn
    · by_cases m3 : model = "MPI_4_layers"
      · have h := new_recognised E netPoseSize netFaceSize outSize model modelFolder logLevel
          downloadHeatmaps scaleMode withFace withHands .MPI_15_4 h0 h1 (by simp [m3])
        refine ⟨⟨fun _ => Or.inr (Or.inr m3), fun _ => h.2.1⟩, fun h2 => absurd h2 m1,
          fun h2 => absurd h2 m2, fun _ => h.1, ?_, ?_⟩
        · intro pm hpm
          rw [h.1] at hpm
          cases hpm
          exact h.2.2
        · intro hn; exact absurd (Or.inr (Or.inr m3)) hn
      · have h := new_unrecognised E netPoseSize netFaceSize outSize model modelFolder logLevel
          downloadHeatmaps scaleMode withFace withHands m1 m2 m3
        have he := (h.2.2.2 ⟨h0, h1⟩).1
        refine ⟨⟨?_, ?_⟩, fun h2 => absurd h2 m1, fun h2 => absurd h2 m2,
          fun h2 => absurd h2 m3, ?_, fun _ => he⟩
        · rintro ⟨w, hw⟩
          rw [he] at hw
          cases hw
        · rintro (h2 | h2 | h2)
          · exact absurd h2 m1
          · exact absurd h2 m2
          · exact absurd h2 m3
        · intro pm hpm
          rw [h.1] at hpm
          cases hpm

/-- C5, at logging level 255: "MPI" selects the 15-point model, while the
lower-case "coco", the padded " COCO" and the empty string are refused. -/
theorem model_selected_iff_recognised_witness :
    (OpenPoseWrapper.new countingEngine ⟨368, 368⟩ ⟨368, 368⟩ ⟨640, 480⟩ "MPI" "models/" 255
        false 0 true true).poseModel = some .MPI_15 ∧
    (OpenPoseWrapper.new countingEngine ⟨368, 368⟩ ⟨368, 368⟩ ⟨640, 480⟩ "coco" "models/" 255
        false 0 true true).result
      = .error "String does not correspond to any model (COCO, MPI, MPI_4_layers)" ∧
    (OpenPoseWrapper.new countingEngine ⟨368, 368⟩ ⟨368, 368⟩ ⟨640, 480⟩ " COCO" "models/" 255
        false 0 true true).result
      = .error "String does not correspond to any model (COCO, MPI, MPI_4_layers)" ∧
    (OpenPoseWrapper.new countingEngine ⟨368, 368⟩ ⟨368, 368⟩ ⟨640, 480⟩ "" "models/" 255
        false 0 true true).result
      = .error "String does not correspond to any model (COCO, MPI, MPI_4_layers)" :=
  ⟨(model_selected_iff_recognised countingEngine ⟨368, 368⟩ ⟨368, 368⟩ ⟨640, 480⟩ "MPI"
      "models/" 255 false 0 true true (by decide) (by decide)).2.2.1 rfl,
   (model_selected_iff_recognised countingEngine ⟨368, 368⟩ ⟨368, 368⟩ ⟨640, 480⟩ "coco"
      "models/" 255 false 0 true true (by decide) (by decide)).2.2.2.2.2 (by decide),
   (model_selected_iff_recognised countingEngine ⟨368, 368⟩ ⟨368, 368⟩ ⟨640, 480⟩ " COCO"
      "models/" 255 false 0 true true (by decide) (by decide)).2.2.2.2.2 (by decide),
   (model_selected_iff_recognised countingEngine ⟨368, 368⟩ ⟨368, 368⟩ ⟨640, 480⟩ ""
      "models/" 255 false 0 true true (by decide) (by decide)).2.2.2.2.2 (by decide)⟩

/-- C6, refuted as stated: for the empty model name at logging level 0 the
constructor fails with the model error while its variable `poseModel` is
still unassigned, so the 18-point fallback was not assigned before the
failure. -/
theorem fallback_not_assigned_before_failure :
    (OpenPoseWrapper.new countingEngine ⟨368, 368⟩ ⟨368, 368⟩ ⟨640, 480⟩ "" "models/" 0
        false 0 true true).result
      = .error "String does not correspond to any model (COCO, MPI, MPI_4_layers)" ∧
    (OpenPoseWrapper.new countingEngine ⟨368, 368⟩ ⟨368, 368⟩ ⟨640, 480⟩ "" "models/" 0
        false 0 true true).poseModel = none ∧
    (OpenPoseWrapper.new countingEngine ⟨368, 368⟩ ⟨368, 368⟩ ⟨640, 480⟩ "" "models/" 0
        false 0 true true).poseModel ≠ some .COCO_18 :=
  ⟨rfl, rfl, by decide⟩

/-- C6, amended: for every model name that is none of the three recognised
ones the constructor raises the error before any pose model is assigned: when
it fails its variable `poseModel` is unassigned and the engine has not been
built; with a logging level in [0,255] the failure is the model error and the
library calls made are the logging set-up only. -/
theorem unrecognised_model_fails_before_fallback {S A : Type} (E : Engine S A)
    (netPoseSize netFaceSize outSize : Size) (model modelFolder : String) (logLevel : Int)
    (downloadHeatmaps : Bool) (scaleMode : Int) (withFace withHands : Bool)
    (m1 : model ≠ "COCO") (m2 : model ≠ "MPI") (m3 : model ≠ "MPI_4_layers") :
    (OpenPoseWrapper.new E netPoseSize netFaceSize outSize model modelFolder logLevel
        downloadHeatmaps scaleMode withFace withHands).poseModel = none ∧
    (∃ e, (OpenPoseWrapper.new E netPoseSize netFaceSize outSize model modelFolder logLevel
        downloadHeatmaps scaleMode withFace withHands).result = .error e) ∧
    (∀ args, EngineCall.newPrivateData args ∉
      (OpenPoseWrapper.new E netPoseSize netFaceSize outSize model modelFolder logLevel
        downloadHeatmaps scaleMode withFace withHands).calls) ∧
    (0 ≤ logLevel ∧ logLevel ≤ 255 →
      (OpenPoseWrapper.new E netPoseSize netFaceSize outSize model modelFolder logLevel
        downloadHeatmaps scaleMode withFace withHands).result
        = .error "String does not correspond to any model (COCO, MPI, MPI_4_layers)" ∧
      (OpenPoseWrapper.new E netPoseSize netFaceSize outSize model modelFolder logLevel
        downloadHeatmaps scaleMode withFace withHands).calls
        = [.initGoogleLogging "OpenPose Wrapper", .setPriorityThreshold logLevel, .log ""]) :=
  new_unrecognised E netPoseSize netFaceSize outSize model modelFolder logLevel
    downloadHeatmaps scaleMode withFace withHands m1 m2 m3

/-- C6 amended, at the model name "BODY_25" and logging level 3. -/
theorem unrecognised_model_fails_before_fallback_witness :
    (OpenPoseWrapper.new countingEngine ⟨368, 368⟩ ⟨368, 368⟩ ⟨640, 480⟩ "BODY_25" "models/" 3
        true 0 true false).poseModel = none ∧
    (OpenPoseWrapper.new countingEngine ⟨368, 368⟩ ⟨368, 368⟩ ⟨640, 480⟩ "BODY_25" "models/" 3
        true 0 true false).calls
      = [.initGoogleLogging "OpenPose Wrapper", .setPriorityThreshold 3, .log ""] :=
  have h := unrecognised_model_fails_before_fallback countingEngine ⟨368, 368⟩ ⟨368, 368⟩
    ⟨640, 480⟩ "BODY_25" "models/" 3 true 0 true false (by decide) (by decide) (by decide)
  ⟨h.1, (h.2.2.2 ⟨by decide, by decide⟩).2⟩

/-! ## Reading keypoints and rendering -/

/-- The three branches of `getKeypoints` over an engine whose getters
return: one matrix for POSE, one for FACE, the left-hand and the right-hand
matrix for HAND. What the getter of an extractor that was never initialised
does is the engine's matter and is not settled here. -/
theorem getKeypoints_groups {S A : Type} (E : Engine S A) (s : OpenPoseWrapper S A) :
    (s.getKeypoints E .POSE).1 = [E.getConstCvMat (E.getPoseKeypoints s.members)] ∧
    (s.getKeypoints E .FACE).1 = [E.getConstCvMat (E.getFaceKeypoints s.members)] ∧
    (s.getKeypoints E .HAND).1
      = [E.getConstCvMat (E.getHandKeypoints s.members).1,
         E.getConstCvMat (E.getHandKeypoints s.members).2] ∧
    (∀ kpt, ((s.getKeypoints E kpt).1.length = if kpt = .HAND then 2 else 1) ∧
      (s.getKeypoints E kpt).2.members = s.members ∧
      (s.getKeypoints E kpt).2.faceRects = s.faceRects ∧
      (s.getKeypoints E kpt).2.handRects = s.handRects) := by
  refine ⟨rfl, rfl, rfl, ?_⟩
  intro kpt
  cases kpt <;> simp [OpenPoseWrapper.getKeypoints]

/-- C9: `render` runs the overlay stages of `stagesFor`, that is pose always,
then face exactly when the face flag is set, then hand exactly when the hand
flag is set, in that order and on the output buffer: the first stage is
handed the buffer the output formatter made of the image and every later
stage the buffer the stage before it returned; the image returned is the
last buffer converted back, the engine state is the one the last stage left,
the library calls made are the formatter call, the calls of those stages and
the conversion, after the calls made before; the flags and the stored region
matrices are left as they were. -/
theorem render_stage_order {S A : Type} (E : Engine S A) (s : OpenPoseWrapper S A)
    (rgb : Mat) :
    (s.render E rgb).1
      = E.formatToCvMat
          (E.overlayAll ((E.outputFormat rgb s.members).2, s.members)
            (stagesFor s.withFace s.withHands)).1
          (E.overlayAll ((E.outputFormat rgb s.members).2, s.members)
            (stagesFor s.withFace s.withHands)).2 ∧
    (s.render E rgb).2.members
      = (E.overlayAll ((E.outputFormat rgb s.members).2, s.members)
          (stagesFor s.withFace s.withHands)).2 ∧
    (s.render E rgb).2.calls
      = s.calls ++ [.outputFormat rgb]
          ++ E.overlayTrace ((E.outputFormat rgb s.members).2, s.members)
              (stagesFor s.withFace s.withHands)
          ++ [.formatToCvMat
                (E.overlayAll ((E.outputFormat rgb s.members).2, s.members)
                  (stagesFor s.withFace s.withHands)).1] ∧
    (((s.render E rgb).2.calls.drop s.calls.length).filterMap EngineCall.stage
      = [Stage.pose] ++ (if s.withFace then [Stage.face] else [])
          ++ (if s.withHands then [Stage.hand] else [])) ∧
    (((s.render E rgb).2.calls.drop s.calls.length).filterMap EngineCall.stageBuffer
      = [(E.outputFormat rgb s.members).2]
          ++ (if s.withFace then
                [(E.overlayAll ((E.outputFormat rgb s.members).2, s.members) [Stage.pose]).1]
              else [])
          ++ (if s.withHands then
                [(E.overlayAll ((E.outputFormat rgb s.members).2, s.members)
                    ([Stage.pose] ++ (if s.withFace then [Stage.face] else []))).1]
              else [])) ∧
    (s.render E rgb).2.calls.take s.calls.length = s.calls ∧
    (s.render E rgb).2.withFace = s.withFace ∧
    (s.render E rgb).2.withHands = s.withHands ∧
    (s.render E rgb).2.faceRects = s.faceRects ∧
    (s.render E rgb).2.handRects = s.handRects := by
  cases hf : s.withFace <;> cases hh : s.withHands <;>
    simp [OpenPoseWrapper.render, hf, hh, stagesFor, Engine.overlayAll, Engine.overlay,
      Engine.overlayTrace, Engine.overlayCalls, EngineCall.stage, EngineCall.stageBuffer,
      List.filterMap_cons, List.filterMap_append]

/-- C9, on the counting engine, whose stages add 1, 2 and 3 (and the
keypoints) to the buffer: with both pipelines enabled the image of two rows
is formatted to buffer 2, the pose stage is handed 2, the face stage 3, the
hand stage 5, and the image returned holds 9; with both disabled only the
pose stage runs and the image holds 3. -/
theorem render_stage_order_witness :
    (fullAdapter.render countingEngine sampleImage).1 = ⟨1, 0, [[9]]⟩ ∧
    (fullAdapter.render countingEngine sampleImage).2.calls
      = fullAdapter.calls ++
          [.outputFormat sampleImage, .getPoseKeypoints, .renderPose 2 0, .getFaceKeypoints,
           .renderFace 3 0, .getHandKeypoints, .renderHand 5 (0, 1), .formatToCvMat 9] ∧
    (poseOnlyAdapter.render countingEngine sampleImage).1 = ⟨1, 0, [[3]]⟩ ∧
    (poseOnlyAdapter.render countingEngine sampleImage).2.calls
      = poseOnlyAdapter.calls ++
          [.outputFormat sampleImage, .getPoseKeypoints, .renderPose 2 0, .formatToCvMat 3] :=
  have hfull := render_stage_order countingEngine fullAdapter sampleImage
  have hpose := render_stage_order countingEngine poseOnlyAdapter sampleImage
  ⟨hfull.1.trans (by decide), hfull.2.2.1.trans rfl,
   hpose.1.trans (by decide), hpose.2.2.1.trans rfl⟩

/-! ## Conversions between `int` cells and `float` coordinates -/

theorem roundToSingle_of_isSingle (n : Int) (h : isSingle n = true) : roundToSingle n = n := by
  simp only [isSingle, Bool.and_eq_true, decide_eq_true_eq, beq_iff_eq] at h
  have hr := h.2
  have hpos : 0 < 2 ^ excessBits 128 n.natAbs := Nat.pos_pow_of_pos _ (by decide)
  have hne : ¬ (0 = 2 ^ excessBits 128 n.natAbs) := by omega
  simp only [roundToSingle, hr, Nat.mul_zero, Nat.not_lt_zero, hne, false_and, or_self,
    if_false]
  rw [Nat.div_mul_cancel (Nat.dvd_of_mod_eq_zero hr)]
  exact Int.sign_mul_natAbs n

theorem truncQ_intCast (n : Int) : truncQ (n : ℚ) = n := by
  unfold truncQ
  split
  · exact Int.floor_intCast n
  · exact Int.ceil_intCast n

theorem floatToInt_intCast (n : Int) (h : inInt32 n = true) : floatToInt (n : ℚ) = n := by
  simp [floatToInt, truncQ_intCast, h]

theorem intToFloat_floatToInt (c : ℚ) (h : isInt32Float c = true) :
    intToFloat (floatToInt c) = c := by
  simp only [isInt32Float, isIntegerFloat, Bool.and_eq_true, beq_iff_eq] at h
  obtain ⟨⟨hden, hsingle⟩, hrange⟩ := h
  have hc : ((c.num : Int) : ℚ) = c := Rat.coe_int_num_of_den_eq_one hden
  rw [← hc, floatToInt_intCast c.num hrange, intToFloat, roundToSingle_of_isSingle c.num hsingle]

theorem vec4iToRect_rectToVec4i (r : Rectangle) (h : r.isInt32 = true) :
    vec4iToRect (rectToVec4i r) = r := by
  simp only [Rectangle.isInt32, Bool.and_eq_true] at h
  obtain ⟨⟨⟨hx, hy⟩, hw⟩, hh⟩ := h
  simp [vec4iToRect, rectToVec4i, intToFloat_floatToInt, hx, hy, hw, hh]

theorem vec8iToRects_rectsToVec8i (r : Rectangle × Rectangle) (h1 : r.1.isInt32 = true)
    (h2 : r.2.isInt32 = true) : vec8iToRects (rectsToVec8i r) = r := by
  simp only [Rectangle.isInt32, Bool.and_eq_true] at h1 h2
  obtain ⟨⟨⟨hx, hy⟩, hw⟩, hh⟩ := h1
  obtain ⟨⟨⟨gx, gy⟩, gw⟩, gh⟩ := h2
  simp [vec8iToRects, rectsToVec8i, intToFloat_floatToInt, hx, hy, hw, hh, gx, gy, gw, gh]

theorem zeros_writeVec4i (vs : List Vec4i) :
    (Mat.zeros vs.length 4 CV_32SC1).writeVec4i vs = ⟨4, CV_32SC1, vs.map Vec4i.cells⟩ := by
  simp [Mat.zeros, Mat.writeVec4i, Mat.rows]

theorem zeros_writeVec8i (vs : List Vec8i) :
    (Mat.zeros vs.length 8 CV_32SC1).writeVec8i vs = ⟨8, CV_32SC1, vs.map Vec8i.cells⟩ := by
  simp [Mat.zeros, Mat.writeVec8i, Mat.rows]

theorem asVec4i_cells (cols type : Nat) (vs : List Vec4i) :
    (Mat.mk cols type (vs.map Vec4i.cells)).asVec4i = vs := by
  simp [Mat.asVec4i, Vec4i.cells, Function.comp_def]

theorem asVec8i_cells (cols type : Nat) (vs : List Vec8i) :
    (Mat.mk cols type (vs.map Vec8i.cells)).asVec8i = vs := by
  simp [Mat.asVec8i, Vec8i.cells, Function.comp_def]

/-! ## Regions handed to the extractors -/

theorem excessBits_le (fuel : Nat) : ∀ (k a : Nat), a < 16777216 * 2 ^ k → excessBits fuel a ≤ k := by
  induction fuel with
  | zero => intro k a _; simp [excessBits]
  | succ fuel ih =>
    intro k a h
    unfold excessBits
    split
    · exact Nat.zero_le k
    · rename_i hge
      cases k with
      | zero => simp at h; omega
      | succ k =>
        have h2 : a / 2 < 16777216 * 2 ^ k := by
          rw [pow_succ] at h
          omega
        have := ih k (a / 2) h2
        omega

theorem roundToSingle_natAbs_le (v : Int) :
    (roundToSingle v).natAbs ≤ v.natAbs + 2 ^ excessBits 128 v.natAbs := by
  have hs : v.sign.natAbs ≤ 1 := by
    rcases Int.lt_trichotomy v 0 with h | h | h
    · simp [Int.sign_eq_neg_one_of_neg h]
    · simp [h]
    · simp [Int.sign_eq_one_of_pos h]
  have hq : v.natAbs / 2 ^ excessBits 128 v.natAbs * 2 ^ excessBits 128 v.natAbs ≤ v.natAbs :=
    Nat.div_mul_le_self _ _
  simp only [roundToSingle, Int.natAbs_mul, Int.natAbs_ofNat]
  split
  · calc v.sign.natAbs * ((v.natAbs / 2 ^ excessBits 128 v.natAbs + 1) * 2 ^ excessBits 128 v.natAbs)
        ≤ 1 * ((v.natAbs / 2 ^ excessBits 128 v.natAbs + 1) * 2 ^ excessBits 128 v.natAbs) :=
          Nat.mul_le_mul_right _ hs
      _ = v.natAbs / 2 ^ excessBits 128 v.natAbs * 2 ^ excessBits 128 v.natAbs
            + 2 ^ excessBits 128 v.natAbs := by ring
      _ ≤ v.natAbs + 2 ^ excessBits 128 v.natAbs := Nat.add_le_add_right hq _
  · calc v.sign.natAbs * (v.natAbs / 2 ^ excessBits 128 v.natAbs * 2 ^ excessBits 128 v.natAbs)
        ≤ 1 * (v.natAbs / 2 ^ excessBits 128 v.natAbs * 2 ^ excessBits 128 v.natAbs) :=
          Nat.mul_le_mul_right _ hs
      _ ≤ v.natAbs + 2 ^ excessBits 128 v.natAbs := by omega

theorem int32_cell_is_not_two_pow_32 (v : Int) (h : inInt32 v = true) :
    intToFloat v ≠ 4294967296 := by
  simp only [inInt32, INT_MIN, INT_MAX, Bool.and_eq_true, decide_eq_true_eq] at h
  have hle : v.natAbs ≤ 2147483648 := by omega
  intro hc
  have hz : roundToSingle v = 4294967296 := by
    have : ((roundToSingle v : Int) : ℚ) = ((4294967296 : Int) : ℚ) := by
      rw [← intToFloat, hc]; norm_num
    exact_mod_cast this
  have he : excessBits 128 v.natAbs ≤ 8 := excessBits_le 128 8 v.natAbs (by norm_num; omega)
  have hp : 2 ^ excessBits 128 v.natAbs ≤ 2 ^ 8 := Nat.pow_le_pow_right (by decide) he
  have hb := roundToSingle_natAbs_le v
  rw [hz] at hb
  have h32 : (4294967296 : Int).natAbs = 4294967296 := by decide
  rw [h32] at hb
  norm_num at hp
  omega

theorem detectFace_stored {S A : Type} (E : Engine S A) (s : OpenPoseWrapper S A) (rgb : Mat)
    (hf : s.withFace = true) :
    (s.detectFace E rgb).2.faceRects
      = ⟨4, CV_32SC1,
         ((E.detectFaces (E.getPoseKeypoints s.members) s.members).map rectToVec4i).map
           Vec4i.cells⟩ := by
  have h := zeros_writeVec4i ((E.detectFaces (E.getPoseKeypoints s.members) s.members).map
    rectToVec4i)
  rw [List.length_map] at h
  simp [OpenPoseWrapper.detectFace, hf, h]

theorem detectHands_stored {S A : Type} (E : Engine S A) (s : OpenPoseWrapper S A) (rgb : Mat)
    (hh : s.withHands = true) :
    (s.detectHands E rgb).2.handRects
      = ⟨8, CV_32SC1,
         ((E.detectHands (E.getPoseKeypoints s.members) s.members).map rectsToVec8i).map
           Vec8i.cells⟩ := by
  have h := zeros_writeVec8i ((E.detectHands (E.getPoseKeypoints s.members) s.members).map
    rectsToVec8i)
  rw [List.length_map] at h
  simp [OpenPoseWrapper.detectHands, hh, h]

theorem map_vec4iToRect_rectToVec4i (rs : List Rectangle) (h : ∀ r ∈ rs, r.isInt32 = true) :
    (rs.map rectToVec4i).map vec4iToRect = rs := by
  induction rs with
  | nil => rfl
  | cons r rs ih =>
    simp only [List.map_cons]
    rw [vec4iToRect_rectToVec4i r (h r (List.mem_cons_self r rs)),
      ih (fun q hq => h q (List.mem_cons_of_mem r hq))]

theorem map_vec8iToRects_rectsToVec8i (rs : List (Rectangle × Rectangle))
    (h : ∀ r ∈ rs, r.1.isInt32 = true ∧ r.2.isInt32 = true) :
    (rs.map rectsToVec8i).map vec8iToRects = rs := by
  induction rs with
  | nil => rfl
  | cons r rs ih =>
    simp only [List.map_cons]
    rw [vec8iToRects_rectsToVec8i r (h r (List.mem_cons_self r rs)).1
        (h r (List.mem_cons_self r rs)).2,
      ih (fun q hq => h q (List.mem_cons_of_mem r hq))]

/-- C10, refuted as stated: for a detected face region whose coordinates
are the integers (4294967296, 0, 1, 1), each the value of a `float`, the
matrix the auto variant stores holds -2147483648 in its first cell and reads
back as another rectangle; no `int` cell reads back as 4294967296. -/
theorem wide_region_not_read_back :
    wideEngine.detectFaces (wideEngine.getPoseKeypoints fullAdapter.members) fullAdapter.members
      = [⟨4294967296, 0, 1, 1⟩] ∧
    Rectangle.isInteger ⟨4294967296, 0, 1, 1⟩ = true ∧
    (fullAdapter.detectFace wideEngine sampleImage).2.faceRects
      = ⟨4, CV_32SC1, [[-2147483648, 0, 1, 1]]⟩ ∧
    (fullAdapter.detectFace wideEngine sampleImage).2.faceRects.asVec4i.map vec4iToRect
      = [⟨-2147483648, 0, 1, 1⟩] ∧
    (fullAdapter.detectFace wideEngine sampleImage).2.faceRects.asVec4i.map vec4iToRect
      ≠ wideEngine.detectFaces (wideEngine.getPoseKeypoints fullAdapter.members)
          fullAdapter.members ∧
    (∀ v : Vec4i, inInt32 v.v0 = true → vec4iToRect v ≠ ⟨4294967296, 0, 1, 1⟩) := by
  refine ⟨rfl, by decide, by decide, by decide, by decide, ?_⟩
  intro v hv hc
  have hx : (vec4iToRect v).x = 4294967296 := by rw [hc]
  exact int32_cell_is_not_two_pow_32 v.v0 hv hx

/-- C10, amended: with the pipeline enabled, the matrix the auto variant
stores has one row per detected region (face) or pair of regions (hand), 4
or 8 columns of type `CV_32SC1` and full rows; when every coordinate of the
detected regions is an integer that the 32-bit `int` type holds, reading the
stored matrix back with the explicit variant's conversion yields the detected
list, same length and same order, and the explicit variant called on the
stored matrix hands that list to the extractor. -/
theorem stored_regions_read_back {S A : Type} (E : Engine S A) (s : OpenPoseWrapper S A)
    (rgb again : Mat) :
    (s.withFace = true →
      ((s.detectFace E rgb).2.faceRects.rows
          = (E.detectFaces (E.getPoseKeypoints s.members) s.members).length ∧
        (s.detectFace E rgb).2.faceRects.cols = 4 ∧
        (s.detectFace E rgb).2.faceRects.type = CV_32SC1 ∧
        (s.detectFace E rgb).2.faceRects.wellFormed) ∧
      ((∀ r ∈ E.detectFaces (E.getPoseKeypoints s.members) s.members, r.isInt32 = true) →
        (s.detectFace E rgb).2.faceRects.asVec4i.map vec4iToRect
          = E.detectFaces (E.getPoseKeypoints s.members) s.members ∧
        ((s.detectFace E rgb).2.detectFaceWith E again (s.detectFace E rgb).2.faceRects).2.calls
          = (s.detectFace E rgb).2.calls ++
              [.faceForwardPass (E.detectFaces (E.getPoseKeypoints s.members) s.members)
                again])) ∧
    (s.withHands = true →
      ((s.detectHands E rgb).2.handRects.rows
          = (E.detectHands (E.getPoseKeypoints s.members) s.members).length ∧
        (s.detectHands E rgb).2.handRects.cols = 8 ∧
        (s.detectHands E rgb).2.handRects.type = CV_32SC1 ∧
        (s.detectHands E rgb).2.handRects.wellFormed) ∧
      ((∀ r ∈ E.detectHands (E.getPoseKeypoints s.members) s.members,
          r.1.isInt32 = true ∧ r.2.isInt32 = true) →
        (s.detectHands E rgb).2.handRects.asVec8i.map vec8iToRects
          = E.detectHands (E.getPoseKeypoints s.members) s.members ∧
        ((s.detectHands E rgb).2.detectHandsWith E again
            (s.detectHands E rgb).2.handRects).2.calls
          = (s.detectHands E rgb).2.calls ++
              [.handForwardPass (E.detectHands (E.getPoseKeypoints s.members) s.members)
                again])) := by
  constructor
  · intro hf
    have hst := detectFace_stored E s rgb hf
    have hflag : (s.detectFace E rgb).2.withFace = true := by
      simp [OpenPoseWrapper.detectFace, hf]
    refine ⟨⟨?_, ?_, ?_, ?_⟩, ?_⟩
    · rw [hst]; simp [Mat.rows]
    · rw [hst]
    · rw [hst]
    · rw [hst]
      intro row hrow
      simp only [List.mem_map] at hrow
      obtain ⟨v, _, hv⟩ := hrow
      rw [← hv]
      rfl
    · intro hall
      have hback := map_vec4iToRect_rectToVec4i _ hall
      have has : (s.detectFace E rgb).2.faceRects.asVec4i.map vec4iToRect
          = E.detectFaces (E.getPoseKeypoints s.members) s.members := by
        rw [hst, asVec4i_cells, hback]
      refine ⟨has, ?_⟩
      have hc : (s.detectFace E rgb).2.faceRects.cols = 4 := by rw [hst]
      have ht : (s.detectFace E rgb).2.faceRects.type = CV_32SC1 := by rw [hst]
      simp only [OpenPoseWrapper.detectFaceWith, hflag, hc, ht, has]
      simp
  · intro hh
    have hst := detectHands_stored E s rgb hh
    have hflag : (s.detectHands E rgb).2.withHands = true := by
      simp [OpenPoseWrapper.detectHands, hh]
    refine ⟨⟨?_, ?_, ?_, ?_⟩, ?_⟩
    · rw [hst]; simp [Mat.rows]
    · rw [hst]
    · rw [hst]
    · rw [hst]
      intro row hrow
      simp only [List.mem_map] at hrow
      obtain ⟨v, _, hv⟩ := hrow
      rw [← hv]
      rfl
    · intro hall
      have hback := map_vec8iToRects_rectsToVec8i _ hall
      have has : (s.detectHands E rgb).2.handRects.asVec8i.map vec8iToRects
          = E.detectHands (E.getPoseKeypoints s.members) s.members := by
        rw [hst, asVec8i_cells, hback]
      refine ⟨has, ?_⟩
      have hc : (s.detectHands E rgb).2.handRects.cols = 8 := by rw [hst]
      have ht : (s.detectHands E rgb).2.handRects.type = CV_32SC1 := by rw [hst]
      simp only [OpenPoseWrapper.detectHandsWith, hflag, hc, ht, has]
      simp

/-- C10 amended, on the enabled adapter over the counting engine, whose
detectors propose the face region (10, 20, 30, 40) and the hand pair
(1, 2, 3, 4), (5, 6, 7, 8). -/
theorem stored_regions_read_back_witness :
    (fullAdapter.detectFace countingEngine sampleImage).2.faceRects
      = ⟨4, CV_32SC1, [[10, 20, 30, 40]]⟩ ∧
    (fullAdapter.detectFace countingEngine sampleImage).2.faceRects.asVec4i.map vec4iToRect
      = [⟨10, 20, 30, 40⟩] ∧
    (fullAdapter.detectHands countingEngine sampleImage).2.handRects
      = ⟨8, CV_32SC1, [[1, 2, 3, 4, 5, 6, 7, 8]]⟩ ∧
    (fullAdapter.detectHands countingEngine sampleImage).2.handRects.asVec8i.map vec8iToRects
      = [(⟨1, 2, 3, 4⟩, ⟨5, 6, 7, 8⟩)] :=
  have h := stored_regions_read_back countingEngine fullAdapter sampleImage sampleImage
  ⟨by decide, ((h.1 rfl).2 (by decide)).1, by decide, ((h.2 rfl).2 (by decide)).1⟩

end PyOpenPose
